import Mathlib

/-!
Shallow embedding of the amqp-base library (a resilience layer for AMQP 0-9-1
clients) and proofs about its configuration and state-machine logic.

The definitions below are translated from the library source:
* `AMQPTieredListener` (tier queue layout, dead-letter chaining, message
  outcome handling),
* `AMQPConsumer` (consume / stopConsuming state handling),
* `AMQPChannelManager` (`_createChannel` guard),
* `AMQPConnector` (constructor and `_selectServerURI`),
* `AMQPPublishStream` (constructor defaulting and `_write` validation).

JavaScript data is modelled with `Option` for possibly-absent object fields
(`none` standing for `undefined`), lists for arrays, and `Nat` identifiers for
promises.  Where the source relies on JS truthiness (for example
`options.highWaterMark || 8` or `if (!routingKey)`), the definitions spell the
falsy cases out (`none`, the empty string, zero).
-/

namespace AmqpBase

/-- A retry tier of the tiered listener: the tier name (used as queue name
suffix and dead-letter routing key) plus the post-failure delay in
milliseconds. -/
structure Tier where
  name : String
  delay : Nat
deriving DecidableEq

/-- An exchange definition, as handed to `assertExchange`. -/
structure ExchangeDef where
  name : String
  exType : String
  durable : Bool
deriving DecidableEq

/-- A queue binding definition: the exchange to bind the queue to and the
routing pattern. -/
structure BindingDef where
  exchange : String
  pattern : String
deriving DecidableEq

/-- Queue declaration options.  Only the fields the tiered listener touches are
modelled as individual fields; the dead-letter fields are `Option` because the
source manipulates them as possibly-absent keys of the options object. -/
structure QueueOptions where
  durable : Option Bool := none
  exclusive : Option Bool := none
  autoDelete : Option Bool := none
  deadLetterExchange : Option String := none
  deadLetterRoutingKey : Option String := none
deriving DecidableEq

/-- The `routing` sub-object of the tiered listener options.  `circular` is
read with JS truthiness (`options.routing.circular || false`), hence the
`Option Bool`. -/
structure RoutingOptions where
  deadLetterExchange : Option ExchangeDef := none
  circular : Option Bool := none
deriving DecidableEq

/-- The options object accepted by `AMQPTieredListener`, after the constructor
has defaulted the missing sub-objects to empty ones. -/
structure TieredOptions where
  queue : QueueOptions := {}
  exchanges : List ExchangeDef := []
  binds : List BindingDef := []
  routing : RoutingOptions := {}
deriving DecidableEq

/-- The default dead-letter exchange of a tiered listener:
`queueNameBase + "DLX"`, direct, durable. -/
def defaultDeadLetterExchange (queueNameBase : String) : ExchangeDef :=
  { name := queueNameBase ++ "DLX", exType := "direct", durable := true }

/-- The dead-letter exchange actually used:
`options.routing.deadLetterExchange || defaultDeadLetterExchange`. -/
def tieredDeadLetterExchange (queueNameBase : String) (opts : TieredOptions) : ExchangeDef :=
  opts.routing.deadLetterExchange.getD (defaultDeadLetterExchange queueNameBase)

/-- The circular-routing flag: `options.routing.circular || false`. -/
def tieredCircular (opts : TieredOptions) : Bool :=
  opts.routing.circular.getD false

/-- All data a single tier consumer is constructed with: queue name, queue
declaration options, the exchanges to assert and the binds to establish. -/
structure ConsumerConfig where
  queueName : String
  queue : QueueOptions
  exchanges : List ExchangeDef
  binds : List BindingDef
deriving DecidableEq

/-- The `constructConsumer` closure built by `AMQPTieredListener` for the tier
at `tierIndex`: it copies the user queue options, adds the dead-letter
exchange/routing-key for every tier but the last (and for the last tier when
circular routing is requested), binds the tier queue to the dead-letter
exchange under its own tier name, and additionally applies the user-supplied
binds to the first tier only. -/
def constructConsumer (queueNameBase : String) (tiers : List Tier) (opts : TieredOptions)
    (tierIndex : Nat) (tier : Tier) : ConsumerConfig :=
  let deadLetterExchange := tieredDeadLetterExchange queueNameBase opts
  let circular := tieredCircular opts
  let queueOptions := opts.queue
  let queueOptions :=
    if tierIndex ≠ tiers.length - 1 then
      { queueOptions with
          deadLetterExchange := some deadLetterExchange.name
          deadLetterRoutingKey := (tiers.get? (tierIndex + 1)).map Tier.name }
    else queueOptions
  let queueOptions :=
    if tierIndex = tiers.length - 1 ∧ circular = true then
      { queueOptions with
          deadLetterExchange := some deadLetterExchange.name
          deadLetterRoutingKey := (tiers.get? 0).map Tier.name }
    else queueOptions
  let queueBinds : List BindingDef := [{ exchange := deadLetterExchange.name, pattern := tier.name }]
  let queueBinds := if tierIndex = 0 then queueBinds ++ opts.binds else queueBinds
  { queueName := queueNameBase ++ "-" ++ tier.name
    queue := queueOptions
    exchanges := opts.exchanges ++ [deadLetterExchange]
    binds := queueBinds }

/-- The list of consumer configurations the tiered listener produces, one per
tier, in order (`tiers.map(createTierQueueConstructor)`). -/
def tieredConsumerConfigs (queueNameBase : String) (tiers : List Tier)
    (opts : TieredOptions) : List ConsumerConfig :=
  List.zipWith (fun i t => constructConsumer queueNameBase tiers opts i t)
    (List.range tiers.length) tiers

/-- The outcome of awaiting the user message handler on one delivery. -/
inductive HandlerOutcome where
  | success
  | failure
deriving DecidableEq

/-- The reaction the tiered listener takes on a delivered message: `ack`, or a
`setTimeout`-delayed `reject` or `requeue`. -/
inductive MessageAction where
  | ack
  | timedReject (delayMs : Nat)
  | timedRequeue (delayMs : Nat)
deriving DecidableEq

/-- The message event handler installed on each tier consumer: on success the
message is acked; on failure it is rejected after the tier delay unless this is
the last tier of a non-circular listener, in which case it is requeued after
the tier delay. -/
def handleTierMessage (tiers : List Tier) (circular : Bool) (tierIndex : Nat) (tier : Tier)
    (outcome : HandlerOutcome) : MessageAction :=
  match outcome with
  | .success => .ack
  | .failure =>
    if tierIndex ≠ tiers.length - 1 ∨ circular = true then
      .timedReject tier.delay
    else
      .timedRequeue tier.delay

/-- References captured by the `AMQPTieredListener` constructor: the position
of the `tiers.slice()` copy in the tier-array heap and the position of the
shallow options copy in the options heap. -/
structure TieredCapture where
  tiersRef : Nat
  optionsRef : Nat
deriving DecidableEq

/-- The aliasing-relevant part of the `AMQPTieredListener` constructor.  JS
arrays and objects are references into heaps (lists indexed by `Nat`).  The
constructor reads the caller's tier array and options object and allocates
fresh copies of both (`tiers.slice()` and the shallow key-by-key option copy);
the returned capture holds references to the copies, never to the caller's
originals.  Nested objects under the option keys are shared in the source;
only the top level is copied, which is what this model represents. -/
def constructTieredListener (tierHeap : List (List Tier)) (optionsHeap : List TieredOptions)
    (tiersRef optionsRef : Nat) :
    List (List Tier) × List TieredOptions × TieredCapture :=
  let tiersVal := (tierHeap.get? tiersRef).getD []
  let optsVal := (optionsHeap.get? optionsRef).getD {}
  (tierHeap ++ [tiersVal], optionsHeap ++ [optsVal],
    { tiersRef := tierHeap.length, optionsRef := optionsHeap.length })

/-- The consumer configurations built on a later channel `create` event: the
constructors read the tier array and options object through the references
captured at construction time. -/
def capturedConsumerConfigs (tierHeap : List (List Tier)) (optionsHeap : List TieredOptions)
    (cap : TieredCapture) (queueNameBase : String) : List ConsumerConfig :=
  tieredConsumerConfigs queueNameBase
    ((tierHeap.get? cap.tiersRef).getD [])
    ((optionsHeap.get? cap.optionsRef).getD {})

/-- The mutable state of an `AMQPConsumer` (TypeScript version).  Promises are
identified by allocation order (`nextPromiseId`); `startConsumingCalls` counts
how many times the `_startConsuming` declaration chain has been begun. -/
structure ConsumerState where
  started : Bool
  consumePromise : Option Nat
  stopPromise : Option Nat
  startConsumingCalls : Nat
  nextPromiseId : Nat
deriving DecidableEq

/-- A freshly constructed consumer. -/
def ConsumerState.initial : ConsumerState :=
  { started := false, consumePromise := none, stopPromise := none,
    startConsumingCalls := 0, nextPromiseId := 0 }

/-- The synchronous effect of `consume()`: when `_started` is false it invokes
`_startConsuming()` — beginning a fresh declaration chain and storing its
promise — and returns that promise; otherwise it returns the stored promise.
`_started` itself is only set later, at the end of the asynchronous
`_startConsuming` body (see `startConsumingComplete`). -/
def consume (s : ConsumerState) : Option Nat × ConsumerState :=
  if s.started = false then
    let p := s.nextPromiseId
    (some p,
      { s with consumePromise := some p,
               startConsumingCalls := s.startConsumingCalls + 1,
               nextPromiseId := p + 1 })
  else
    (s.consumePromise, s)

/-- The tail of `_startConsuming`: after the `assertQueue`, `assertExchange`
and `bindQueue` RPCs have completed, the method sets `_started = true` and
returns (its promise then resolves). -/
def startConsumingComplete (s : ConsumerState) : ConsumerState :=
  { s with started := true }

/-- The synchronous effect of `stopConsuming()`: if the consumer is not
started, already has a stop promise, or has no consume promise, it returns the
existing stop promise (or, when there is none — modelled by `none` — a fresh
already-resolved promise).  Otherwise it clears `_started`, builds the stop
promise chain, clears the consume promise and returns the new stop promise. -/
def stopConsuming (s : ConsumerState) : Option Nat × ConsumerState :=
  if s.started = false ∨ s.stopPromise.isSome = true ∨ s.consumePromise.isNone = true then
    (s.stopPromise, s)
  else
    let q := s.nextPromiseId
    (some q,
      { s with started := false,
               stopPromise := some q,
               consumePromise := none,
               nextPromiseId := q + 1 })

/-- The final continuation of the stop chain (`.then(function() { ... })`)
clears the stored stop promise. -/
def clearStopPromise (s : ConsumerState) : ConsumerState :=
  { s with stopPromise := none }

/-- Settlement of a promise: fulfilled or rejected. -/
inductive PromiseOutcome where
  | resolved
  | rejected
deriving DecidableEq

/-- `p.then(f)`: if `p` rejects, `f` is skipped and the rejection propagates;
if `p` resolves, the result is the outcome of `f`. -/
def promiseThen : PromiseOutcome → PromiseOutcome → PromiseOutcome
  | .resolved, k => k
  | .rejected, _ => .rejected

/-- The `_ignoreCancellationErrors` catch handler: it is a no-op that returns
normally, so a rejected chain becomes resolved and a resolved chain passes
through. -/
def swallowCancellationErrors : PromiseOutcome → PromiseOutcome
  | .resolved => .resolved
  | .rejected => .resolved

/-- The settlement of the promise built by `stopConsuming`:
`consumePromise.then(cancelCurrentConsumer).catch(ignore).then(clear)`, as a
function of the settlements of the consume promise and of the `basic.cancel`
RPC. -/
def stopChainOutcome (consumeOutcome cancelOutcome : PromiseOutcome) : PromiseOutcome :=
  promiseThen (swallowCancellationErrors (promiseThen consumeOutcome cancelOutcome)) .resolved

/-- The mutable state of an `AMQPChannelManager`.  `channelRequests` counts the
channel-creation requests issued to the connection
(`createChannel` / `createConfirmChannel`). -/
structure ChannelManagerState where
  started : Bool
  creatingChannel : Bool
  channel : Option Nat
  connectionClosed : Bool
  channelRequests : Nat
deriving DecidableEq

/-- The synchronous prefix of `_createChannel`: the guard is
`if (!self._started || self._creatingChannel) return;` — and nothing else.
When the guard lets the call through, `_creatingChannel` is set and one
channel is requested from the connection. -/
def createChannelAttempt (s : ChannelManagerState) : ChannelManagerState :=
  if s.started = false ∨ s.creatingChannel = true then s
  else { s with creatingChannel := true, channelRequests := s.channelRequests + 1 }

/-- The `serverURI` constructor argument of `AMQPConnector`: a single URI or an
array of URIs. -/
inductive ConnectorURIArg where
  | single (uri : String)
  | list (uris : List String)
deriving DecidableEq

/-- The `AMQPConnector` constructor's handling of its URI argument:
`Array.isArray(serverURI) ? serverURI.slice() : [serverURI]`.  The result is
wrapped in `Except` to express whether construction throws; the source
contains no validation and no throw, so every argument — the empty array
included — is accepted. -/
def connectorConstruct (arg : ConnectorURIArg) : Except String (List String) :=
  .ok (match arg with
    | .single u => [u]
    | .list us => us)

/-- `_selectServerURI` of `AMQPConnector`.  The index of the last used URI is
computed as `lastUsedURI ? this._serverURIs.indexOf(lastUsedURI) : -1`; note
the JS truthiness test, under which the empty string is treated like null.
If that index is negative the first URI is used; if it is before the last
position the next URI is used; otherwise the first URI is used again. -/
def selectServerURI (serverURIs : List String) (lastUsedURI : Option String) : Option String :=
  let lastURIIndex : Int :=
    match lastUsedURI with
    | none => -1
    | some u =>
      if u = "" then -1
      else
        match serverURIs.findIdx? (fun x => x == u) with
        | some k => (k : Int)
        | none => -1
  if lastURIIndex < 0 then serverURIs.get? 0
  else if lastURIIndex < (serverURIs.length : Int) - 1 then
    serverURIs.get? (lastURIIndex + 1).toNat
  else serverURIs.get? 0

/-- Options accepted by the `AMQPPublishStream` constructor. -/
structure PublishStreamOptions where
  highWaterMark : Option Nat := none
deriving DecidableEq

/-- The high-water mark handed to the Writable base constructor:
`options = options || {}` followed by `options.highWaterMark || 8`, where a
missing field and the falsy value 0 both fall back to 8. -/
def publishStreamHighWaterMark (options : Option PublishStreamOptions) : Nat :=
  let opts := options.getD {}
  match opts.highWaterMark with
  | none => 8
  | some n => if n = 0 then 8 else n

/-- A message payload as accepted by the publish stream: a string (encoded as
UTF-8) or a byte buffer (passed through). -/
inductive MessageContent where
  | str (s : String)
  | bytes (b : List Nat)
deriving DecidableEq

/-- Publish options attached to a message. -/
structure PublishOptions where
  persistent : Bool := false
deriving DecidableEq

/-- A message object written to the publish stream; every field may be absent.
-/
structure MessageChunk where
  exchange : Option String := none
  routingKey : Option String := none
  content : Option MessageContent := none
  options : Option PublishOptions := none
deriving DecidableEq

/-- A chunk written to the stream: either not an object at all, or a message
object. -/
inductive WriteChunk where
  | nonObject
  | message (m : MessageChunk)
deriving DecidableEq

/-- The errors `_write` can raise synchronously through the write callback
before publishing. -/
inductive WriteError where
  | notAnObject
  | contentConversionFailed
  | noRoutingKey
deriving DecidableEq

/-- The arguments of the `channel.publish` call issued by `_write`. -/
structure PublishCall where
  exchange : String
  routingKey : String
  content : List Nat
  options : PublishOptions
deriving DecidableEq

/-- UTF-8 encoding of a string payload, as `Buffer.from(content, utf-8)`. -/
def utf8Bytes (s : String) : List Nat :=
  s.toUTF8.toList.map (fun b => b.toNat)

/-- `Buffer.isBuffer(content) ? content : Buffer.from(content, utf-8)`: a
buffer passes through, a string is encoded, and a missing content field makes
`Buffer.from` throw. -/
def contentToBuffer : Option MessageContent → Except WriteError (List Nat)
  | none => .error .contentConversionFailed
  | some (.str s) => .ok (utf8Bytes s)
  | some (.bytes b) => .ok b

/-- The verification part of `AMQPPublishStream._write`.  An `.error e` result
means the write callback is invoked synchronously with an error and
`channel.publish` is never called for the chunk; an `.ok` result carries the
arguments of the `channel.publish` call.  The field reads follow the source
order: the object check, then `exchange = message.exchange || (empty)`, the
content conversion (which may throw), the options default, and finally the
`if (!routingKey) throw` check. -/
def publishStreamWrite (chunk : WriteChunk) : Except WriteError PublishCall :=
  match chunk with
  | .nonObject => .error .notAnObject
  | .message m =>
    let exchange :=
      match m.exchange with
      | none => ""
      | some e => if e = "" then "" else e
    match contentToBuffer m.content with
    | .error e => .error e
    | .ok content =>
      let options := m.options.getD { persistent := false }
      match m.routingKey with
      | none => .error .noRoutingKey
      | some rk =>
        if rk = "" then .error .noRoutingKey
        else .ok { exchange := exchange, routingKey := rk, content := content, options := options }

/-- Claim C1: in a tiered listener, the consumer for tier i declares the queue
named queueNameBase + "-" + tier name; for i below the last index its queue
options carry the dead-letter exchange name and tier i+1's name as the
dead-letter routing key; the last tier adds no dead-letter settings when
circular is false and dead-letters to tier 0 when circular is true; every tier
is bound to the dead-letter exchange under its own tier name, and only tier 0
additionally receives the user-supplied binds. -/
theorem tiered_listener_layout (base : String) (tiers : List Tier) (opts : TieredOptions)
    (i : Nat) (t : Tier) (hi : tiers.get? i = some t)
    (hdlx : opts.queue.deadLetterExchange = none)
    (hdlrk : opts.queue.deadLetterRoutingKey = none) :
    (constructConsumer base tiers opts i t).queueName = base ++ "-" ++ t.name
    ∧ (i < tiers.length - 1 →
        (constructConsumer base tiers opts i t).queue.deadLetterExchange
            = some (tieredDeadLetterExchange base opts).name
        ∧ ∃ u, tiers.get? (i + 1) = some u
            ∧ (constructConsumer base tiers opts i t).queue.deadLetterRoutingKey = some u.name)
    ∧ (i = tiers.length - 1 → tieredCircular opts = false →
        (constructConsumer base tiers opts i t).queue.deadLetterExchange = none
        ∧ (constructConsumer base tiers opts i t).queue.deadLetterRoutingKey = none)
    ∧ (i = tiers.length - 1 → tieredCircular opts = true →
        (constructConsumer base tiers opts i t).queue.deadLetterExchange
            = some (tieredDeadLetterExchange base opts).name
        ∧ ∃ u, tiers.get? 0 = some u
            ∧ (constructConsumer base tiers opts i t).queue.deadLetterRoutingKey = some u.name)
    ∧ ({ exchange := (tieredDeadLetterExchange base opts).name, pattern := t.name : BindingDef })
        ∈ (constructConsumer base tiers opts i t).binds
    ∧ (i = 0 → (constructConsumer base tiers opts i t).binds
        = { exchange := (tieredDeadLetterExchange base opts).name, pattern := t.name : BindingDef }
            :: opts.binds)
    ∧ (i ≠ 0 → (constructConsumer base tiers opts i t).binds
        = [{ exchange := (tieredDeadLetterExchange base opts).name, pattern := t.name : BindingDef }]) := by
  have hlen : i < tiers.length := by
    rcases List.get?_eq_some.mp hi with ⟨h, _⟩
    exact h
  refine ⟨rfl, ?_, ?_, ?_, ?_, ?_, ?_⟩
  · intro h
    have hne : i ≠ tiers.length - 1 := Nat.ne_of_lt h
    have h1 : i + 1 < tiers.length := by omega
    refine ⟨?_, tiers.get ⟨i + 1, h1⟩, List.get?_eq_get h1, ?_⟩
    · simp [constructConsumer, hne]
    · simp [constructConsumer, hne, List.get?_eq_get h1]
      exact ⟨_, List.getElem?_eq_getElem h1, rfl⟩
  · intro h hc
    constructor
    · simp [constructConsumer, h, hc, hdlx]
    · simp [constructConsumer, h, hc, hdlrk]
  · intro h hc
    have h0 : 0 < tiers.length := by omega
    refine ⟨?_, tiers.get ⟨0, h0⟩, List.get?_eq_get h0, ?_⟩
    · simp [constructConsumer, h, hc]
    · simp [constructConsumer, h, hc, List.get?_eq_get h0]
      exact ⟨_, List.getElem?_eq_getElem h0, rfl⟩
  · by_cases h0 : i = 0 <;> simp [constructConsumer, h0]
  · intro h0
    simp [constructConsumer, h0]
  · intro h0
    simp [constructConsumer, h0]

/-- Witness for `tiered_listener_layout` on a concrete two-tier layout. -/
theorem tiered_listener_layout_witness :
    (constructConsumer "Q" [⟨"fast", 500⟩, ⟨"slow", 1000⟩] {} 0 ⟨"fast", 500⟩).queueName
      = "Q-fast" := by
  have h := tiered_listener_layout "Q" [⟨"fast", 500⟩, ⟨"slow", 1000⟩] {} 0 ⟨"fast", 500⟩
    rfl rfl rfl
  exact h.1

/-- Claim C2: on a delivery to tier i, a successful handler leads to ack; a
failed handler leads to a reject delayed by the tier delay when i is not the
last index or circular routing is on, and to a delayed requeue on the last
tier of a non-circular listener (the single-tier case included), which never
rejects. -/
theorem tiered_message_dispatch (tiers : List Tier) (circular : Bool) (i : Nat) (t : Tier)
    (_hi : i < tiers.length) :
    handleTierMessage tiers circular i t .success = .ack
    ∧ (i < tiers.length - 1 ∨ circular = true →
        handleTierMessage tiers circular i t .failure = .timedReject t.delay)
    ∧ (i = tiers.length - 1 → circular = false →
        handleTierMessage tiers circular i t .failure = .timedRequeue t.delay)
    ∧ (i = tiers.length - 1 → circular = false →
        ∀ o d, handleTierMessage tiers circular i t o ≠ .timedReject d) := by
  refine ⟨rfl, ?_, ?_, ?_⟩
  · intro h
    have hcond : i ≠ tiers.length - 1 ∨ circular = true := by
      rcases h with h | h
      · exact Or.inl (Nat.ne_of_lt h)
      · exact Or.inr h
    simp only [handleTierMessage]
    rw [if_pos hcond]
  · intro h hc
    simp [handleTierMessage, h, hc]
  · intro h hc o d
    cases o
    · simp [handleTierMessage]
    · simp [handleTierMessage, h, hc]

/-- Witness for `tiered_message_dispatch`: a single-tier non-circular listener
requeues a failed message after its delay. -/
theorem tiered_message_dispatch_witness :
    handleTierMessage [⟨"fast", 500⟩] false 0 ⟨"fast", 500⟩ .failure = .timedRequeue 500 := by
  have h := tiered_message_dispatch [⟨"fast", 500⟩] false 0 ⟨"fast", 500⟩ (by decide)
  exact h.2.2.1 rfl rfl

/-- Claim C3 counterexample: the guard of `_createChannel` does not inspect
the channel field.  In the concrete state below the manager is started, not
mid-creation, but already holds a channel — and the call still proceeds and
requests a channel from the connection, instead of returning immediately as
the claim states. -/
theorem createChannel_ignores_channel_field :
    (ChannelManagerState.mk true false (some 0) false 0).channel ≠ none
    ∧ createChannelAttempt (ChannelManagerState.mk true false (some 0) false 0)
        ≠ ChannelManagerState.mk true false (some 0) false 0
    ∧ (createChannelAttempt (ChannelManagerState.mk true false (some 0) false 0)).channelRequests
        = 1 := by
  decide

/-- Claim C3 (amended): `_createChannel` returns immediately, requesting no
channel, unless the manager is started and not already mid-creation — the
guard does not require `channel == null`.  When it proceeds it issues exactly
one creation request and marks the manager mid-creation, so a repeated attempt
while a creation is in flight requests nothing further, and the manager's
single channel slot references at most one channel. -/
theorem createChannel_guard (s : ChannelManagerState) :
    (s.started = false ∨ s.creatingChannel = true → createChannelAttempt s = s)
    ∧ (s.started = true → s.creatingChannel = false →
        (createChannelAttempt s).channelRequests = s.channelRequests + 1
        ∧ (createChannelAttempt s).creatingChannel = true
        ∧ (createChannelAttempt s).channel = s.channel)
    ∧ createChannelAttempt (createChannelAttempt s) = createChannelAttempt s := by
  refine ⟨?_, ?_, ?_⟩
  · intro h
    simp [createChannelAttempt, h]
  · intro hs hc
    have h : ¬(s.started = false ∨ s.creatingChannel = true) := by
      simp [hs, hc]
    simp [createChannelAttempt, h]
  · by_cases h : s.started = false ∨ s.creatingChannel = true
    · simp [createChannelAttempt, h]
    · push_neg at h
      obtain ⟨hs, hc⟩ := h
      have hs2 : s.started = true := by
        cases hb : s.started
        · exact absurd hb hs
        · rfl
      have hc2 : s.creatingChannel = false := by
        cases hb : s.creatingChannel
        · rfl
        · exact absurd hb hc
      simp [createChannelAttempt, hs2, hc2]

/-- Witness for `createChannel_guard`: a stopped manager attempts nothing; a
started, idle one issues exactly one request. -/
theorem createChannel_guard_witness :
    createChannelAttempt (ChannelManagerState.mk false false none false 0)
      = ChannelManagerState.mk false false none false 0
    ∧ (createChannelAttempt (ChannelManagerState.mk true false none false 0)).channelRequests
      = 1 := by
  constructor
  · exact (createChannel_guard (ChannelManagerState.mk false false none false 0)).1 (Or.inl rfl)
  · exact ((createChannel_guard (ChannelManagerState.mk true false none false 0)).2.1 rfl rfl).1

/-- Claim C4: the TypeScript `consume()` is not idempotent before the first
call's promise resolves.  `_started` is only set at the end of the
asynchronous `_startConsuming` body, so a second `consume()` issued in the
same synchronous turn still sees `_started == false`, begins a second
declaration chain and returns a different promise — contradicting both the
claim and the method's own doc comment. -/
theorem consume_double_call_not_deduplicated :
    (consume ConsumerState.initial).1 = some 0
    ∧ (consume (consume ConsumerState.initial).2).1 = some 1
    ∧ (consume ConsumerState.initial).1 ≠ (consume (consume ConsumerState.initial).2).1
    ∧ (consume (consume ConsumerState.initial).2).2.startConsumingCalls = 2
    ∧ (consume (startConsumingComplete (consume ConsumerState.initial).2)).1 = some 0 := by
  decide

/-- Claim C5 counterexample: the source computes the last-used index as
`lastUsedURI ? indexOf(lastUsedURI) : -1`, so an empty-string URI — even one
that is an element of the list at a non-final position — is treated as
unknown and selection restarts at index 0 instead of advancing to the next
element as the claim requires. -/
theorem selectServerURI_empty_string_counterexample :
    ("" ∈ ["", "b"])
    ∧ ["", "b"].findIdx? (fun x => x == "") = some 0
    ∧ selectServerURI ["", "b"] (some "") = some ""
    ∧ selectServerURI ["", "b"] (some "") ≠ some "b" := by
  decide

/-- Claim C5 (amended): for every non-empty URI list, if the last used URI is
unknown — null, the empty string, or not an element of the list — the next
attempt uses index 0; if its first occurrence is the last position, index 0;
otherwise the element right after that first occurrence. -/
theorem selectServerURI_round_robin (serverURIs : List String) (hne : serverURIs ≠ [])
    (lastUsedURI : Option String) :
    (∃ v, serverURIs.get? 0 = some v)
    ∧ (lastUsedURI = none → selectServerURI serverURIs lastUsedURI = serverURIs.get? 0)
    ∧ (lastUsedURI = some "" → selectServerURI serverURIs lastUsedURI = serverURIs.get? 0)
    ∧ (∀ u, lastUsedURI = some u → serverURIs.findIdx? (fun x => x == u) = none →
        selectServerURI serverURIs lastUsedURI = serverURIs.get? 0)
    ∧ (∀ u k, lastUsedURI = some u → u ≠ "" →
        serverURIs.findIdx? (fun x => x == u) = some k →
        (k = serverURIs.length - 1 →
          selectServerURI serverURIs lastUsedURI = serverURIs.get? 0)
        ∧ (k < serverURIs.length - 1 →
          selectServerURI serverURIs lastUsedURI = serverURIs.get? (k + 1)
          ∧ ∃ v, serverURIs.get? (k + 1) = some v)) := by
  have hpos : 0 < serverURIs.length := List.length_pos.mpr hne
  refine ⟨⟨serverURIs.get ⟨0, hpos⟩, List.get?_eq_get hpos⟩, ?_, ?_, ?_, ?_⟩
  · intro h
    simp [selectServerURI, h]
  · intro h
    simp [selectServerURI, h]
  · intro u hu hnone
    simp [selectServerURI, hu, hnone]
  · intro u k hu hune hk
    constructor
    · intro hlast
      have h1 : ¬((k : Int) < 0) := by omega
      have h2 : ¬((k : Int) < (serverURIs.length : Int) - 1) := by omega
      simp [selectServerURI, hu, hune, hk, h1, h2]
    · intro hbefore
      have h1 : ¬((k : Int) < 0) := by omega
      have h2 : (k : Int) < (serverURIs.length : Int) - 1 := by omega
      have h3 : ((k : Int) + 1).toNat = k + 1 := by omega
      have h4 : k + 1 < serverURIs.length := by omega
      refine ⟨?_, serverURIs.get ⟨k + 1, h4⟩, List.get?_eq_get h4⟩
      simp [selectServerURI, hu, hune, hk, h1, h2, h3]

/-- Witness for `selectServerURI_round_robin` on the list [a, b]: nothing used
yet gives a; after a comes b; after the last element b selection wraps to a. -/
theorem selectServerURI_round_robin_witness :
    selectServerURI ["a", "b"] none = some "a"
    ∧ selectServerURI ["a", "b"] (some "a") = some "b"
    ∧ selectServerURI ["a", "b"] (some "b") = some "a" := by
  refine ⟨?_, ?_, ?_⟩
  · exact (selectServerURI_round_robin ["a", "b"] (by decide) none).2.1 rfl
  · have h := ((selectServerURI_round_robin ["a", "b"] (by decide) (some "a")).2.2.2.2
      "a" 0 rfl (by decide) (by decide)).2 (by decide)
    exact h.1
  · exact ((selectServerURI_round_robin ["a", "b"] (by decide) (some "b")).2.2.2.2
      "b" 1 rfl (by decide) (by decide)).1 rfl

/-- Claim C6: on a started consumer (one with a stored consume promise and no
stop in progress) the first `stopConsuming()` marks it not-started, stores and
returns a fresh stop promise whose chain settles resolved for every outcome of
the consume promise and of the `basic.cancel` RPC (errors are swallowed), and
whose final continuation clears the stored stop promise; when the consumer has
not started or is already stopping, the existing stop promise (or an
already-resolved one, modelled by `none`) is returned and the state is left
unchanged. -/
theorem stopConsuming_spec (s : ConsumerState) :
    (s.started = true → s.consumePromise.isSome = true → s.stopPromise = none →
      (stopConsuming s).1 = some s.nextPromiseId
      ∧ (stopConsuming s).2.started = false
      ∧ (stopConsuming s).2.stopPromise = some s.nextPromiseId
      ∧ (stopConsuming s).2.consumePromise = none
      ∧ (∀ c k : PromiseOutcome, stopChainOutcome c k = .resolved)
      ∧ (clearStopPromise (stopConsuming s).2).stopPromise = none)
    ∧ (s.started = false ∨ s.stopPromise.isSome = true →
        stopConsuming s = (s.stopPromise, s)) := by
  constructor
  · intro hs hc hst
    have hcn : ¬(s.consumePromise = none) := Option.isSome_iff_ne_none.mp hc
    refine ⟨?_, ?_, ?_, ?_, ?_, ?_⟩
    · simp [stopConsuming, hs, hst, hcn]
    · simp [stopConsuming, hs, hst, hcn]
    · simp [stopConsuming, hs, hst, hcn]
    · simp [stopConsuming, hs, hst, hcn]
    · intro c k
      cases c <;> cases k <;> rfl
    · simp [stopConsuming, clearStopPromise, hs, hst, hcn]
  · intro h
    rcases h with h | h
    · simp [stopConsuming, h]
    · simp [stopConsuming, h]

/-- Witness for `stopConsuming_spec`: a started consumer gets a fresh stop
promise and is marked not-started; a never-started one gets the resolved
placeholder and keeps its state. -/
theorem stopConsuming_spec_witness :
    (stopConsuming (ConsumerState.mk true (some 0) none 1 1)).1 = some 1
    ∧ (stopConsuming (ConsumerState.mk true (some 0) none 1 1)).2.started = false
    ∧ stopConsuming ConsumerState.initial = (none, ConsumerState.initial) := by
  refine ⟨?_, ?_, ?_⟩
  · exact ((stopConsuming_spec (ConsumerState.mk true (some 0) none 1 1)).1 rfl rfl rfl).1
  · exact ((stopConsuming_spec (ConsumerState.mk true (some 0) none 1 1)).1 rfl rfl rfl).2.1
  · exact (stopConsuming_spec ConsumerState.initial).2 (Or.inl rfl)

/-- Claim C7: a chunk that is not an object, or whose routingKey is missing or
empty, makes `_write` invoke the write callback synchronously with an error
and never reach `channel.publish`; when the chunk is published, a missing or
empty exchange field has been replaced by the empty string. -/
theorem publishStream_write_validation (chunk : WriteChunk) :
    (chunk = .nonObject → publishStreamWrite chunk = .error .notAnObject)
    ∧ (∀ m, chunk = .message m → (m.routingKey = none ∨ m.routingKey = some "") →
        ∃ e, publishStreamWrite chunk = .error e)
    ∧ (∀ m pc, chunk = .message m → publishStreamWrite chunk = .ok pc →
        ((m.exchange = none ∨ m.exchange = some "") → pc.exchange = "")
        ∧ (∀ ex, m.exchange = some ex → ex ≠ "" → pc.exchange = ex)) := by
  refine ⟨?_, ?_, ?_⟩
  · intro h
    subst h
    rfl
  · intro m hm hrk
    subst hm
    cases hc : contentToBuffer m.content with
    | error e =>
      exact ⟨e, by simp [publishStreamWrite, hc]⟩
    | ok content =>
      rcases hrk with h | h
      · exact ⟨.noRoutingKey, by simp [publishStreamWrite, hc, h]⟩
      · exact ⟨.noRoutingKey, by simp [publishStreamWrite, hc, h]⟩
  · intro m pc hm hok
    subst hm
    simp only [publishStreamWrite] at hok
    cases hc : contentToBuffer m.content with
    | error e =>
      rw [hc] at hok
      simp at hok
    | ok content =>
      rw [hc] at hok
      cases hrk : m.routingKey with
      | none =>
        rw [hrk] at hok
        simp at hok
      | some rk =>
        rw [hrk] at hok
        by_cases hempty : rk = ""
        · simp [hempty] at hok
        · simp [hempty] at hok
          constructor
          · intro hex
            rcases hex with hex | hex <;> simp [← hok, hex]
          · intro ex hex hexne
            simp [← hok, hex, hexne]

/-- Witness for `publishStream_write_validation`: a non-object write and a
write without routing key both fail synchronously, and a published message
with a missing exchange field goes to the empty-string default exchange. -/
theorem publishStream_write_validation_witness :
    publishStreamWrite .nonObject = .error .notAnObject
    ∧ (∃ e, publishStreamWrite
        (WriteChunk.message { routingKey := none, content := some (.bytes [1]) }) = .error e)
    ∧ (PublishCall.mk "" "q" [1] { persistent := false }).exchange = "" := by
  refine ⟨?_, ?_, ?_⟩
  · exact (publishStream_write_validation .nonObject).1 rfl
  · exact (publishStream_write_validation
      (WriteChunk.message { routingKey := none, content := some (.bytes [1]) })).2.1
      _ rfl (Or.inl rfl)
  · exact ((publishStream_write_validation
      (WriteChunk.message { exchange := none, routingKey := some "q", content := some (.bytes [1]) })).2.2
      _ (PublishCall.mk "" "q" [1] { persistent := false }) rfl rfl).1 (Or.inl rfl)

/-- Claim C8: the `AMQPConnector` constructor performs no validation of its
URI list — the empty array is accepted, not rejected, and URI selection on the
resulting empty list yields no URI at all (undefined in the source). -/
theorem connector_accepts_empty_uri_list :
    connectorConstruct (.list []) = .ok []
    ∧ selectServerURI [] none = none := by
  refine ⟨rfl, by decide⟩

/-- Claim C9: with the options object omitted, or with a missing or zero
highWaterMark, the effective high-water mark is 8; only a non-zero value
overrides it, and the effective value can never be zero. -/
theorem publishStream_highWaterMark_default (options : Option PublishStreamOptions) :
    (options = none → publishStreamHighWaterMark options = 8)
    ∧ (∀ o, options = some o → o.highWaterMark = none →
        publishStreamHighWaterMark options = 8)
    ∧ (∀ o, options = some o → o.highWaterMark = some 0 →
        publishStreamHighWaterMark options = 8)
    ∧ (∀ o n, options = some o → o.highWaterMark = some n → n ≠ 0 →
        publishStreamHighWaterMark options = n)
    ∧ publishStreamHighWaterMark options ≠ 0 := by
  refine ⟨?_, ?_, ?_, ?_, ?_⟩
  · intro h
    simp [publishStreamHighWaterMark, h]
  · intro o h hh
    simp [publishStreamHighWaterMark, h, hh]
  · intro o h hh
    simp [publishStreamHighWaterMark, h, hh]
  · intro o n h hh hn
    simp [publishStreamHighWaterMark, h, hh, hn]
  · rcases options with _ | o
    · simp [publishStreamHighWaterMark]
    · rcases ho : o.highWaterMark with _ | n
      · simp [publishStreamHighWaterMark, ho]
      · by_cases hn : n = 0
        · simp [publishStreamHighWaterMark, ho, hn]
        · simp [publishStreamHighWaterMark, ho, hn]

/-- Witness for `publishStream_highWaterMark_default`: omitted options and an
explicit zero both yield 8, while 3 is kept. -/
theorem publishStream_highWaterMark_default_witness :
    publishStreamHighWaterMark none = 8
    ∧ publishStreamHighWaterMark (some { highWaterMark := some 0 }) = 8
    ∧ publishStreamHighWaterMark (some { highWaterMark := some 3 }) = 3 := by
  refine ⟨?_, ?_, ?_⟩
  · exact (publishStream_highWaterMark_default none).1 rfl
  · exact (publishStream_highWaterMark_default (some { highWaterMark := some 0 })).2.2.1
      _ rfl rfl
  · exact (publishStream_highWaterMark_default (some { highWaterMark := some 3 })).2.2.2.1
      _ 3 rfl rfl (by decide)

/-- Reading back the freshly appended copy is unaffected by overwriting the
original slot it was copied from. -/
theorem set_append_singleton_get {α : Type} (l : List α) (v w : α) (i : Nat)
    (hi : i < l.length) : ((l ++ [v]).set i w).get? l.length = some v := by
  rw [List.get?_eq_getElem?, List.getElem?_set_ne (Nat.ne_of_lt hi),
    List.getElem?_concat_length]

/-- Claim C10: the tiered listener constructor snapshots the tier array with
slice and shallow-copies the options object, so overwriting the caller's tier
array and reassigning the caller's top-level options afterwards leaves the
consumer configurations built on later channel create events — tier count,
queue names and dead-letter routing included — exactly as computed from the
construction-time values. -/
theorem tiered_listener_frame (tierHeap : List (List Tier)) (optionsHeap : List TieredOptions)
    (tiersRef optionsRef : Nat)
    (ht : tiersRef < tierHeap.length) (ho : optionsRef < optionsHeap.length)
    (newTiers : List Tier) (newOpts : TieredOptions) (base : String) :
    capturedConsumerConfigs
        ((constructTieredListener tierHeap optionsHeap tiersRef optionsRef).1.set tiersRef newTiers)
        ((constructTieredListener tierHeap optionsHeap tiersRef optionsRef).2.1.set optionsRef newOpts)
        (constructTieredListener tierHeap optionsHeap tiersRef optionsRef).2.2 base
      = tieredConsumerConfigs base ((tierHeap.get? tiersRef).getD [])
          ((optionsHeap.get? optionsRef).getD {})
    ∧ (capturedConsumerConfigs
        ((constructTieredListener tierHeap optionsHeap tiersRef optionsRef).1.set tiersRef newTiers)
        ((constructTieredListener tierHeap optionsHeap tiersRef optionsRef).2.1.set optionsRef newOpts)
        (constructTieredListener tierHeap optionsHeap tiersRef optionsRef).2.2 base).length
      = ((tierHeap.get? tiersRef).getD []).length := by
  have hmain : capturedConsumerConfigs
      ((constructTieredListener tierHeap optionsHeap tiersRef optionsRef).1.set tiersRef newTiers)
      ((constructTieredListener tierHeap optionsHeap tiersRef optionsRef).2.1.set optionsRef newOpts)
      (constructTieredListener tierHeap optionsHeap tiersRef optionsRef).2.2 base
      = tieredConsumerConfigs base ((tierHeap.get? tiersRef).getD [])
          ((optionsHeap.get? optionsRef).getD {}) := by
    simp only [capturedConsumerConfigs, constructTieredListener]
    rw [set_append_singleton_get tierHeap _ _ _ ht,
      set_append_singleton_get optionsHeap _ _ _ ho]
    simp
  refine ⟨hmain, ?_⟩
  rw [hmain]
  simp [tieredConsumerConfigs, List.length_zipWith]

/-- Witness for `tiered_listener_frame`: a one-tier listener is insensitive to
the caller emptying the tier array and replacing the options afterwards. -/
theorem tiered_listener_frame_witness :
    capturedConsumerConfigs
        ((constructTieredListener [[⟨"fast", 500⟩]] [{}] 0 0).1.set 0 [])
        ((constructTieredListener [[⟨"fast", 500⟩]] [{}] 0 0).2.1.set 0
          { binds := [{ exchange := "X", pattern := "p" }] })
        (constructTieredListener [[⟨"fast", 500⟩]] [{}] 0 0).2.2 "Q"
      = tieredConsumerConfigs "Q" [⟨"fast", 500⟩] {} := by
  have h := tiered_listener_frame [[⟨"fast", 500⟩]] [{}] 0 0 (by decide) (by decide)
    [] { binds := [{ exchange := "X", pattern := "p" }] } "Q"
  exact h.1

end AmqpBase
